import Mathlib

/-!
A shallow embedding of the quiz-generation form, `GenerateQuiz.jsx`.

The component `GenerateQuiz` of `Client/src/components/GenerateQuiz.jsx` keeps
eight pieces of React state and reacts to user events through a handful of
handlers.  Each handler is embedded as a pure function on the record of the
eight state cells; `handleGenerate`, which also talks to the outside world,
returns the final state together with the list of effects it issued (HTTP
posts, navigations, timers, console output), the answer of the server being
an input of the model.

JavaScript values that cross the component (the server's response body, the
`msg` field of an error, the `error` and `generatedQuiz` cells) are embedded
as `JsValue`, with JavaScript truthiness.  Strings are sequences of Unicode
scalar values.  A Number is an integer-valued double or an infinity, which
is every value the question count can take.
-/

namespace GenerateQuiz

/-! ## JavaScript values -/

/-- A JavaScript Number as far as the component meets one: a double whose
value is the integer `n`, or one of the two infinities. -/
inductive JsNumber where
  | finite (n : Int) : JsNumber
  | infinity (negative : Bool) : JsNumber
  deriving DecidableEq

instance (n : Nat) : OfNat JsNumber n :=
  ⟨.finite n⟩

/-- Unary minus on a Number. -/
def JsNumber.neg : JsNumber → JsNumber
  | .finite n => .finite (-n)
  | .infinity negative => .infinity (!negative)

instance : Neg JsNumber :=
  ⟨JsNumber.neg⟩

/-- JavaScript values as far as the component can observe them: the JSON
values a server can send, plus `undefined`; numbers are kept to the
integers and the infinities. -/
inductive JsValue where
  | undefined : JsValue
  | null : JsValue
  | bool (b : Bool) : JsValue
  | number (n : JsNumber) : JsValue
  | string (s : String) : JsValue
  | array (items : List JsValue) : JsValue
  | object (props : List (String × JsValue)) : JsValue

/-- JavaScript `ToBoolean`: `undefined`, `null`, `false`, `0` and `''` are
falsy, every array and object is truthy. -/
def JsValue.truthy : JsValue → Bool
  | .undefined => false
  | .null => false
  | .bool b => b
  | .number n => n != 0
  | .string s => s != ""
  | .array _ => true
  | .object _ => true

/-- JavaScript `a || b`. -/
def JsValue.or (a b : JsValue) : JsValue :=
  if a.truthy then a else b

/-- Optional property read `v?.key`: `undefined` on `undefined` and `null`,
the property's value on an object that has it, `undefined` otherwise
(primitives and arrays have no own property of the names used here). -/
def JsValue.optProp (v : JsValue) (key : String) : JsValue :=
  match v with
  | .object props =>
    match props.lookup key with
    | some x => x
    | none => .undefined
  | _ => .undefined

/-- Truthiness of a JavaScript string: every string but `''`. -/
def strTruthy (s : String) : Bool :=
  s != ""

/-- Code points of ECMAScript `WhiteSpace` and `LineTerminator`, the
characters `String.prototype.trim` and `parseInt` strip. -/
def isJsWhiteSpace (c : Char) : Bool :=
  let n := c.toNat
  n == 0x9 || n == 0xA || n == 0xB || n == 0xC || n == 0xD || n == 0x20 ||
  n == 0xA0 || n == 0x1680 || (0x2000 ≤ n && n ≤ 0x200A) || n == 0x2028 ||
  n == 0x2029 || n == 0x202F || n == 0x205F || n == 0x3000 || n == 0xFEFF

/-- The method `String.prototype.trim`: white space removed at both ends. -/
def jsTrim (s : String) : String :=
  String.mk ((s.data.dropWhile isJsWhiteSpace).rdropWhile isJsWhiteSpace)

/-- Value of a character as a digit in the given radix (10 or 16), if any. -/
def digitValue (radix : Nat) (c : Char) : Option Nat :=
  let n := c.toNat
  if 48 ≤ n && n ≤ 57 then some (n - 48)
  else if radix == 16 && 97 ≤ n && n ≤ 102 then some (n - 87)
  else if radix == 16 && 65 ≤ n && n ≤ 70 then some (n - 55)
  else none

/-- Value of the longest prefix of digits of the given radix, read left to
right from the accumulator `acc`; `seen` records whether a digit was read.
Returns `none` when no digit was read. -/
def parseDigits (radix : Nat) : List Char → Nat → Bool → Option Nat
  | [], acc, seen => if seen then some acc else none
  | c :: cs, acc, seen =>
    match digitValue radix c with
    | some d => parseDigits radix cs (acc * radix + d) true
    | none => if seen then some acc else none

/-- The least `e`, from the given one on, with `m / 2 ^ e` below 2^53, tried
for `fuel` successive values. -/
def doubleShift : Nat → Nat → Nat → Nat
  | 0, _, e => e
  | fuel + 1, m, e => if m / 2 ^ e < 2 ^ 53 then e else doubleShift fuel m (e + 1)

/-- The bound 2^1024: every finite double is below it. -/
@[irreducible] def doubleLimit : Nat :=
  2 ^ 1024

/-- The exponent of the double nearest to `m`, for `m` from 2^53 up to the
bound: the least `e` from 1 on with `m / 2 ^ e` below 2^53. -/
def doubleExponent (m : Nat) : Nat :=
  doubleShift 971 m 1

/-- The multiple of `2 ^ e` nearest to `m`, a tie going to the even multiple,
as a Number: `Infinity` when it reaches the bound. -/
def roundAt (m e : Nat) : JsNumber :=
  let q := m / 2 ^ e
  let r := m % 2 ^ e
  let half := 2 ^ (e - 1)
  let q := if half < r || (r == half && q % 2 == 1) then q + 1 else q
  if doubleLimit ≤ q * 2 ^ e then .infinity false else .finite (Int.ofNat (q * 2 ^ e))

/-- The Number value of a natural number: the double nearest to it, ties
going to the even significand, and `Infinity` when that rounding reaches
2^1024.  Below 2^53 every natural number is a double. -/
def nearestDouble (m : Nat) : JsNumber :=
  if m < 2 ^ 53 then .finite m
  else if doubleLimit ≤ m then .infinity false
  else roundAt m (doubleExponent m)

/-- The global `parseInt(string)` called without a radix: leading white
space is skipped, one sign is read, a `0x`/`0X` mark selects radix 16, and
the longest prefix of digits is read as an integer; `none` stands for `NaN`.
The result is the Number value of the signed integer read (`-0` and `0` are
one value here, both falsy).  The digits are read exactly, as engines do; the
standard lets an engine replace decimal digits after the twentieth by
zeros. -/
def parseInt (input : String) : Option JsNumber :=
  let s := input.data.dropWhile isJsWhiteSpace
  let negative : Bool := s.head? == some '-'
  let s := if s.head? == some '-' || s.head? == some '+' then s.tail else s
  let parsed :=
    if s.take 2 == ['0', 'x'] || s.take 2 == ['0', 'X'] then parseDigits 16 (s.drop 2) 0 false
    else parseDigits 10 s 0 false
  match parsed with
  | some m => some (if negative then -(nearestDouble m) else nearestDouble m)
  | none => none

/-- The expression `parseInt(v) || 10`: `NaN` and `0` are falsy. -/
def parseIntOrTen (v : String) : JsNumber :=
  match parseInt v with
  | some n => if n != 0 then n else 10
  | none => 10

/-- The call `str.replace(/\/$/, '')`: one `/` removed at the end of the
string when there is one. -/
def stripTrailingSlash (s : String) : String :=
  if s.data.getLast? = some '/' then String.mk s.data.dropLast else s

/-! ## State of the component -/

/-- A browser `File`: the three properties the component reads. -/
structure File where
  name : String
  size : Nat
  type : String
  deriving DecidableEq

/-- The eight `useState` cells of `GenerateQuiz`. -/
structure State where
  activeTab : String
  textContent : String
  uploadedFile : Option File
  loading : Bool
  error : JsValue
  dragActive : Bool
  numQuestions : JsNumber
  generatedQuiz : JsValue

/-- The initial values passed to `useState`. -/
def State.init : State where
  activeTab := "upload"
  textContent := ""
  uploadedFile := none
  loading := false
  error := .string ""
  dragActive := false
  numQuestions := 10
  generatedQuiz := .null

/-! ## File selection -/

/-- The constant `allowedTypes` of `handleFile`. -/
def allowedTypes : List String :=
  [ "application/pdf",
    "application/vnd.openxmlformats-officedocument.wordprocessingml.document",
    "application/msword",
    "text/plain",
    "text/markdown" ]

/-- The handler `handleFile`: type check, then size check, then accept. -/
def handleFile (file : File) (s : State) : State :=
  if !(allowedTypes.contains file.type) then
    { s with error := .string "Please upload a PDF, DOC, DOCX, TXT, or MD file" }
  else if file.size > 10 * 1024 * 1024 then
    { s with error := .string "File size must be less than 10MB" }
  else
    { s with uploadedFile := some file, error := .string "" }

/-- The handler `handleDrag`, from the type of the drag event. -/
def handleDrag (eventType : String) (s : State) : State :=
  if eventType == "dragenter" || eventType == "dragover" then
    { s with dragActive := true }
  else if eventType == "dragleave" then
    { s with dragActive := false }
  else s

/-- The handler `handleDrop`, from the files of the drop event. -/
def handleDrop (files : List File) (s : State) : State :=
  let s := { s with dragActive := false }
  match files with
  | file :: _ => handleFile file s
  | [] => s

/-- The handler `handleFileInput`, from the files of the input element. -/
def handleFileInput (files : List File) (s : State) : State :=
  match files with
  | file :: _ => handleFile file s
  | [] => s

/-- The handler `removeFile`. -/
def removeFile (s : State) : State :=
  { s with uploadedFile := none }

/-- The two tab buttons: `setActiveTab('upload')` and `setActiveTab('text')`. -/
def selectUploadTab (s : State) : State :=
  { s with activeTab := "upload" }

/-- The second tab button. -/
def selectTextTab (s : State) : State :=
  { s with activeTab := "text" }

/-- The `onChange` of the text area. -/
def changeText (value : String) (s : State) : State :=
  { s with textContent := value }

/-- The `onChange` of the count input:
`setNumQuestions(parseInt(e.target.value) || 10)`. -/
def changeNumQuestions (value : String) (s : State) : State :=
  { s with numQuestions := parseIntOrTen value }

/-! ## Rendering -/

/-- The `disabled` attribute of the submit button. -/
def submitDisabled (s : State) : Bool :=
  s.loading || (s.activeTab == "upload" && !s.uploadedFile.isSome) ||
    (s.activeTab == "text" && !strTruthy (jsTrim s.textContent))

/-- The conditional `generatedQuiz ? (success panel) : (form)`: whether the
success panel is rendered in place of the form. -/
def showsResult (s : State) : Bool :=
  s.generatedQuiz.truthy

/-! ## Submission -/

/-- The value handed to one call `formData.append(name, value)`: a file, or
a Number.  The browser stores a Number as the text `String(value)`; that
conversion is the browser's and is not part of this embedding. -/
inductive FormEntry where
  | file (f : File) : FormEntry
  | number (n : JsNumber) : FormEntry

/-- Body handed to `axios.post`: a `FormData` with its entries as they were
appended, or an object that axios sends as JSON. -/
inductive Body where
  | formData (entries : List (String × FormEntry)) : Body
  | json (props : List (String × JsValue)) : Body

/-- One call of `axios.post`: the address, the body and the headers. -/
structure Request where
  url : String
  body : Body
  headers : List (String × String)

/-- The response object of a fulfilled `axios.post`: the component reads
`data` only. -/
structure Response where
  data : JsValue

/-- The error of a rejected `axios.post`: `response` is absent when the
request got no answer. -/
structure RequestError where
  response : Option Response

/-- How the awaited `axios.post` settles. -/
inductive Outcome where
  | fulfilled (response : Response) : Outcome
  | rejected (err : RequestError) : Outcome

/-- What `handleGenerate` does to the world outside the state cells. -/
inductive Effect where
  | post (req : Request) : Effect
  | navigate (path : String) : Effect
  | navigateAfter (delay : Nat) (path : String) : Effect
  | consoleError (label : String) : Effect

/-- The surroundings of one submit: the stored token
(`localStorage.getItem('token')`), the build-time variable
`process.env.REACT_APP_API_URL`, and the server's answer to a request. -/
structure Env where
  token : Option String
  apiUrlVar : Option String
  post : Request → Outcome

/-- The constant `API_URL`:
`process.env.REACT_APP_API_URL || 'http://localhost:5000'`. -/
def API_URL (env : Env) : String :=
  match env.apiUrlVar with
  | some u => if strTruthy u then u else "http://localhost:5000"
  | none => "http://localhost:5000"

/-- The local `apiBase`: `API_URL ? API_URL.replace(/\/$/, '') : ''`. -/
def apiBase (env : Env) : String :=
  if strTruthy (API_URL env) then stripTrailingSlash (API_URL env) else ""

/-- Truthiness of the value of `localStorage.getItem`: `null` and `''` are
falsy. -/
def tokenTruthy : Option String → Bool
  | some t => strTruthy t
  | none => false

/-- The request of the upload branch. -/
def fileRequest (base token : String) (file : File) (numQuestions : JsNumber) : Request where
  url := base ++ "/api/quiz/generate/file"
  body := .formData [("file", .file file), ("numQuestions", .number numQuestions)]
  headers := [("Authorization", "Bearer " ++ token), ("Content-Type", "multipart/form-data")]

/-- The request of the text branch. -/
def textRequest (base token : String) (text : String) (numQuestions : JsNumber) :
    Request where
  url := base ++ "/api/quiz/generate/text"
  body := .json [("text", .string text), ("numQuestions", .number numQuestions)]
  headers := [("Authorization", "Bearer " ++ token), ("Content-Type", "application/json")]

/-- State and effects so far in a run of `handleGenerate`. -/
structure Run where
  state : State
  effects : List Effect

/-- The call `setLoading(b)`. -/
def Run.setLoading (r : Run) (b : Bool) : Run :=
  { r with state := { r.state with loading := b } }

/-- The call `setError(v)`. -/
def Run.setError (r : Run) (v : JsValue) : Run :=
  { r with state := { r.state with error := v } }

/-- The call `setGeneratedQuiz(v)`. -/
def Run.setGeneratedQuiz (r : Run) (v : JsValue) : Run :=
  { r with state := { r.state with generatedQuiz := v } }

/-- One more effect, after those issued so far. -/
def Run.emit (r : Run) (e : Effect) : Run :=
  { r with effects := r.effects ++ [e] }

/-- The expression `err.response?.data?.msg`. -/
def RequestError.msg (err : RequestError) : JsValue :=
  match err.response with
  | some response => response.data.optProp "msg"
  | none => .undefined

/-- What follows the awaited post: lines 126-131 when it is fulfilled, the
`catch` block when it is rejected. -/
def afterPost (r : Run) : Outcome → Run
  | .fulfilled response =>
    if response.data.truthy then
      (r.setGeneratedQuiz response.data).emit (.navigateAfter 2000 "/dashboard")
    else r
  | .rejected err =>
    (r.emit (.consoleError "Generate quiz error:")).setError
      (err.msg.or (.string "Failed to generate quiz"))

/-- The handler `handleGenerate`, run to completion: the three setters, the
`try` block with its early returns, the `catch` block, and the `finally`
block on every path.  The values of `activeTab`, `uploadedFile`,
`textContent` and `numQuestions` are those of the state `s` in which the
handler was called. -/
def handleGenerate (env : Env) (s : State) : Run :=
  let r : Run := { state := s, effects := [] }
  let r := ((r.setLoading true).setError (.string "")).setGeneratedQuiz .null
  let r :=
    match (if tokenTruthy env.token then env.token else none) with
    | none =>
      (r.setError (.string "Please login to generate quizzes")).emit (.navigate "/login")
    | some token =>
      match (if s.activeTab == "upload" then s.uploadedFile else none) with
      | some file =>
        let req := fileRequest (apiBase env) token file s.numQuestions
        afterPost (r.emit (.post req)) (env.post req)
      | none =>
        if s.activeTab == "text" && strTruthy (jsTrim s.textContent) then
          let req := textRequest (apiBase env) token s.textContent s.numQuestions
          afterPost (r.emit (.post req)) (env.post req)
        else
          (r.setError (.string "Please provide content to generate quiz from")).setLoading false
  r.setLoading false

/-- The requests among a list of effects, in order. -/
def networkCalls : List Effect → List Request
  | [] => []
  | .post req :: rest => req :: networkCalls rest
  | _ :: rest => networkCalls rest

/-- The immediate navigations among a list of effects, in order. -/
def navigations : List Effect → List String
  | [] => []
  | .navigate path :: rest => path :: navigations rest
  | _ :: rest => navigations rest

/-- The scheduled navigations among a list of effects: delay and target. -/
def scheduled : List Effect → List (Nat × String)
  | [] => []
  | .navigateAfter delay path :: rest => (delay, path) :: scheduled rest
  | _ :: rest => scheduled rest

/-- The tab cell holds one of the two values the tab buttons assign. -/
def validTab (s : State) : Prop :=
  s.activeTab = "upload" ∨ s.activeTab = "text"

instance (s : State) : Decidable (validTab s) := by
  unfold validTab
  infer_instance

/-- The user events of the form, each with what the browser hands to its
handler. -/
inductive Event where
  | clickUploadTab : Event
  | clickTextTab : Event
  | typeText (value : String) : Event
  | chooseFiles (files : List File) : Event
  | drop (files : List File) : Event
  | drag (eventType : String) : Event
  | clickRemoveFile : Event
  | typeCount (value : String) : Event
  | clickGenerate (env : Env) : Event

/-- The handler bound to each event, a submit being run to completion. -/
def step (s : State) : Event → State
  | .clickUploadTab => selectUploadTab s
  | .clickTextTab => selectTextTab s
  | .typeText value => changeText value s
  | .chooseFiles files => handleFileInput files s
  | .drop files => handleDrop files s
  | .drag eventType => handleDrag eventType s
  | .clickRemoveFile => removeFile s
  | .typeCount value => changeNumQuestions value s
  | .clickGenerate env => (handleGenerate env s).state

/-- The state after a sequence of events, from the initial state. -/
def stateAfter (events : List Event) : State :=
  events.foldl step State.init

/-- The natural number that a list of decimal digit characters denotes, most
significant digit first. -/
def decimalValue (digits : List Char) : Nat :=
  Nat.ofDigits 10 (digits.reverse.map fun c => c.toNat - 48)

/-- The state cells while the request is in flight: what the three setters
at the head of `handleGenerate` leave. -/
def pending (s : State) : State :=
  { s with loading := true, error := .string "", generatedQuiz := .null }

/-! ## Auxiliary facts -/

theorem strTruthy_eq_false_iff (t : String) : strTruthy t = false ↔ t = "" := by
  simp [strTruthy]

theorem rdropWhile_dropWhile_eq_nil_iff (p : Char → Bool) (l : List Char) :
    (l.dropWhile p).rdropWhile p = [] ↔ ∀ c ∈ l, p c = true := by
  rw [List.rdropWhile_eq_nil_iff]
  constructor
  · intro h
    apply List.dropWhile_eq_nil_iff.mp
    by_contra hne
    have hhead := List.head_dropWhile_not p l hne
    have := h _ (List.head_mem hne)
    simp [hhead] at this
  · intro h
    have : l.dropWhile p = [] := List.dropWhile_eq_nil_iff.mpr h
    simp [this]

/-- The trimmed text is the empty string exactly when every character of the
text is white space. -/
theorem jsTrim_falsy_iff (t : String) :
    strTruthy (jsTrim t) = false ↔ ∀ c ∈ t.data, isJsWhiteSpace c = true := by
  rw [strTruthy_eq_false_iff, jsTrim, ← rdropWhile_dropWhile_eq_nil_iff]
  constructor
  · intro h
    have := congrArg String.data h
    simpa using this
  · intro h
    rw [h]

/-! ## File validation -/

/-- C1: a file whose MIME type is none of the five allowed types is rejected
whatever its size: the error becomes the fixed type message and the selected
file is the one selected before. -/
theorem handleFile_rejects_type (file : File) (s : State)
    (h : file.type ∉ ["application/pdf", "application/msword",
      "application/vnd.openxmlformats-officedocument.wordprocessingml.document",
      "text/plain", "text/markdown"]) :
    (handleFile file s).error = .string "Please upload a PDF, DOC, DOCX, TXT, or MD file" ∧
    (handleFile file s).uploadedFile = s.uploadedFile := by
  have hc : file.type ∉ allowedTypes := by
    simp only [allowedTypes, List.mem_cons, List.mem_singleton, List.not_mem_nil, or_false] at h ⊢
    tauto
  simp [handleFile, hc]

/-- A PNG image of 20,000,000 bytes, over the size limit, is rejected for its
type. -/
theorem handleFile_rejects_type_witness :
    (handleFile ⟨"photo.png", 20000000, "image/png"⟩ State.init).error =
        .string "Please upload a PDF, DOC, DOCX, TXT, or MD file" ∧
    (handleFile ⟨"photo.png", 20000000, "image/png"⟩ State.init).uploadedFile =
        State.init.uploadedFile :=
  handleFile_rejects_type ⟨"photo.png", 20000000, "image/png"⟩ State.init (by decide)

/-- C2: a file of an allowed type is rejected with the size message, the
selected file unchanged, exactly when its size is over 10,485,760 bytes; up to
and including 10,485,760 bytes it becomes the selected file and the error is
cleared. -/
theorem handleFile_size_limit (file : File) (s : State)
    (h : file.type ∈ ["application/pdf", "application/msword",
      "application/vnd.openxmlformats-officedocument.wordprocessingml.document",
      "text/plain", "text/markdown"]) :
    (((handleFile file s).error = .string "File size must be less than 10MB" ∧
        (handleFile file s).uploadedFile = s.uploadedFile) ↔ file.size > 10485760) ∧
    (file.size ≤ 10485760 →
      (handleFile file s).uploadedFile = some file ∧
        (handleFile file s).error = .string "") := by
  have hc : file.type ∈ allowedTypes := by
    simp only [allowedTypes, List.mem_cons, List.mem_singleton, List.not_mem_nil, or_false] at h ⊢
    tauto
  by_cases hs : file.size > 10485760
  · have hs2 : ¬ file.size ≤ 10485760 := by omega
    simp [handleFile, hc, hs, hs2]
  · have hs2 : file.size ≤ 10485760 := by omega
    simp [handleFile, hc, hs, hs2]

/-- A PDF of exactly 10,485,760 bytes is accepted. -/
theorem handleFile_size_limit_witness :
    (handleFile ⟨"notes.pdf", 10485760, "application/pdf"⟩ State.init).uploadedFile =
        some ⟨"notes.pdf", 10485760, "application/pdf"⟩ ∧
    (handleFile ⟨"notes.pdf", 10485760, "application/pdf"⟩ State.init).error = .string "" :=
  (handleFile_size_limit ⟨"notes.pdf", 10485760, "application/pdf"⟩ State.init
    (by decide)).2 (by decide)

/-! ## The submit button -/

/-- The `disabled` expression, read as a proposition. -/
theorem submitDisabled_true_iff (s : State) :
    submitDisabled s = true ↔
      s.loading = true ∨
      (s.activeTab = "upload" ∧ s.uploadedFile = none) ∨
      (s.activeTab = "text" ∧
        (s.textContent = "" ∨ ∀ c ∈ s.textContent.data, isJsWhiteSpace c = true)) := by
  have hempty : s.textContent = "" → ∀ c ∈ s.textContent.data, isJsWhiteSpace c = true := by
    intro h c hc
    rw [h] at hc
    simp at hc
  have htrim := jsTrim_falsy_iff s.textContent
  have hfile : s.uploadedFile.isSome = false ↔ s.uploadedFile = none := by
    cases s.uploadedFile <;> simp
  simp only [submitDisabled, Bool.or_eq_true, Bool.and_eq_true, beq_iff_eq,
    Bool.not_eq_true', hfile, htrim]
  constructor
  · rintro ((h | h) | h)
    · exact Or.inl h
    · exact Or.inr (Or.inl h)
    · exact Or.inr (Or.inr ⟨h.1, Or.inr h.2⟩)
  · rintro (h | h | ⟨h1, h2 | h2⟩)
    · exact Or.inl (Or.inl h)
    · exact Or.inl (Or.inr h)
    · exact Or.inr ⟨h1, hempty h2⟩
    · exact Or.inr ⟨h1, h2⟩

/-- C3: the submit button is disabled exactly when `loading` holds, or the
tab is `upload` and no file is selected, or the tab is `text` and every
character of the text (if any) is white space; on the upload tab the text,
and on the text tab the file, has no influence on it. -/
theorem submitDisabled_iff (s : State) :
    (submitDisabled s = true ↔
      s.loading = true ∨
      (s.activeTab = "upload" ∧ s.uploadedFile = none) ∨
      (s.activeTab = "text" ∧
        (s.textContent = "" ∨ ∀ c ∈ s.textContent.data, isJsWhiteSpace c = true))) ∧
    (∀ t : String,
      submitDisabled { s with activeTab := "upload", textContent := t } =
        submitDisabled { s with activeTab := "upload" }) ∧
    (∀ f : Option File,
      submitDisabled { s with activeTab := "text", uploadedFile := f } =
        submitDisabled { s with activeTab := "text" }) := by
  refine ⟨submitDisabled_true_iff s, ?_, ?_⟩
  · intro t
    simp [submitDisabled]
  · intro f
    simp [submitDisabled]

theorem stripTrailingSlash_append_slash (base : String) :
    stripTrailingSlash (base ++ "/") = base := by
  have hd : (base ++ "/").data = base.data ++ ['/'] := by
    simp [String.data_append]
  simp [stripTrailingSlash, hd]

theorem API_URL_truthy (env : Env) : strTruthy (API_URL env) = true := by
  unfold API_URL
  cases h : env.apiUrlVar with
  | none => decide
  | some u =>
    by_cases hu : strTruthy u = true
    · simp [hu]
    · have hd : strTruthy "http://localhost:5000" = true := by decide
      simp [hu, hd]

theorem apiBase_eq (env : Env) : apiBase env = stripTrailingSlash (API_URL env) := by
  simp [apiBase, API_URL_truthy]

theorem networkCalls_append (xs ys : List Effect) :
    networkCalls (xs ++ ys) = networkCalls xs ++ networkCalls ys := by
  induction xs with
  | nil => rfl
  | cons e rest ih => cases e <;> simp [networkCalls, ih]

/-- The post-processing of the awaited call issues no request of its own. -/
theorem networkCalls_afterPost (r : Run) (o : Outcome) :
    networkCalls (afterPost r o).effects = networkCalls r.effects := by
  cases o with
  | fulfilled response =>
    by_cases h : response.data.truthy = true <;>
      simp [afterPost, h, Run.setGeneratedQuiz, Run.emit, networkCalls_append, networkCalls]
  | rejected err =>
    simp [afterPost, Run.setError, Run.emit, networkCalls_append, networkCalls]

/-! ## Submission without a token -/

/-- C4: with no stored token (absent, or the empty string) a submit issues no
network call, navigates to `/login`, sets the login error, leaves
`generatedQuiz` null and ends with `loading` false, whatever the state. -/
theorem handleGenerate_without_token (env : Env) (s : State)
    (h : env.token = none ∨ env.token = some "") :
    networkCalls (handleGenerate env s).effects = [] ∧
    navigations (handleGenerate env s).effects = ["/login"] ∧
    (handleGenerate env s).state.error = .string "Please login to generate quizzes" ∧
    (handleGenerate env s).state.generatedQuiz = .null ∧
    (handleGenerate env s).state.loading = false := by
  have ht : (if tokenTruthy env.token then env.token else none) = none := by
    rcases h with h | h <;> simp [h, tokenTruthy, strTruthy]
  simp [handleGenerate, ht, Run.setLoading, Run.setError, Run.setGeneratedQuiz, Run.emit,
    networkCalls, navigations]

/-- An empty token, a selected file and a pasted text: the submit goes to the
login page without a request. -/
theorem handleGenerate_without_token_witness :
    networkCalls (handleGenerate ⟨some "", none, fun _ => .fulfilled ⟨.bool true⟩⟩
      { State.init with textContent := "abc",
                        uploadedFile := some ⟨"a.txt", 3, "text/plain"⟩ }).effects = [] ∧
    navigations (handleGenerate ⟨some "", none, fun _ => .fulfilled ⟨.bool true⟩⟩
      { State.init with textContent := "abc",
                        uploadedFile := some ⟨"a.txt", 3, "text/plain"⟩ }).effects
        = ["/login"] :=
  have h := handleGenerate_without_token ⟨some "", none, fun _ => .fulfilled ⟨.bool true⟩⟩
    { State.init with textContent := "abc", uploadedFile := some ⟨"a.txt", 3, "text/plain"⟩ }
    (Or.inr rfl)
  ⟨h.1, h.2.1⟩

theorem jsTrim_truthy_iff (t : String) :
    strTruthy (jsTrim t) = true ↔ ∃ c ∈ t.data, isJsWhiteSpace c = false := by
  have h := jsTrim_falsy_iff t
  constructor
  · intro ht
    by_contra hcon
    push_neg at hcon
    have hall : ∀ c ∈ t.data, isJsWhiteSpace c = true := by
      intro c hc
      have := hcon c hc
      simpa using this
    have := h.mpr hall
    rw [ht] at this
    exact Bool.noConfusion this
  · rintro ⟨c, hc, hw⟩
    by_contra hcon
    have hf : strTruthy (jsTrim t) = false := by simpa using hcon
    have := h.mp hf c hc
    rw [hw] at this
    exact Bool.noConfusion this

theorem token_branch (env : Env) (token : String)
    (htok : env.token = some token) (hne : token ≠ "") :
    (if tokenTruthy env.token then env.token else none) = some token := by
  simp [htok, tokenTruthy, strTruthy, hne]

/-- The upload branch: one post of the file request, then its aftermath. -/
theorem handleGenerate_upload (env : Env) (s : State) (token : String) (file : File)
    (htok : env.token = some token) (hne : token ≠ "")
    (htab : s.activeTab = "upload") (hfile : s.uploadedFile = some file) :
    handleGenerate env s =
      (afterPost ⟨pending s, [.post (fileRequest (apiBase env) token file s.numQuestions)]⟩
        (env.post (fileRequest (apiBase env) token file s.numQuestions))).setLoading false := by
  simp [handleGenerate, token_branch env token htok hne, htab, hfile, pending,
    Run.setLoading, Run.setError, Run.setGeneratedQuiz, Run.emit]

/-- The text branch: one post of the text request, then its aftermath. -/
theorem handleGenerate_text (env : Env) (s : State) (token : String)
    (htok : env.token = some token) (hne : token ≠ "")
    (htab : s.activeTab = "text") (htext : strTruthy (jsTrim s.textContent) = true) :
    handleGenerate env s =
      (afterPost ⟨pending s, [.post (textRequest (apiBase env) token s.textContent s.numQuestions)]⟩
        (env.post (textRequest (apiBase env) token s.textContent s.numQuestions))).setLoading
          false := by
  have hup : ¬ s.activeTab = "upload" := by
    rw [htab]
    decide
  simp [handleGenerate, token_branch env token htok hne, htab, htext, pending,
    Run.setLoading, Run.setError, Run.setGeneratedQuiz, Run.emit]

/-- The last branch: no post, the content error. -/
theorem handleGenerate_else (env : Env) (s : State) (token : String)
    (htok : env.token = some token) (hne : token ≠ "")
    (hup : ¬ (s.activeTab = "upload" ∧ s.uploadedFile ≠ none))
    (htx : ¬ (s.activeTab = "text" ∧ strTruthy (jsTrim s.textContent) = true)) :
    handleGenerate env s =
      ⟨{ s with loading := false,
                error := .string "Please provide content to generate quiz from",
                generatedQuiz := .null }, []⟩ := by
  have h1 : (if s.activeTab == "upload" then s.uploadedFile else none) = none := by
    by_cases ht : s.activeTab = "upload"
    · have : s.uploadedFile = none := by
        by_contra hc
        exact hup ⟨ht, hc⟩
      simp [ht, this]
    · simp [ht]
  have h2 : (s.activeTab == "text" && strTruthy (jsTrim s.textContent)) = false := by
    by_cases ht : s.activeTab = "text"
    · have : strTruthy (jsTrim s.textContent) = false := by
        by_contra hc
        exact htx ⟨ht, by simpa using hc⟩
      simp [ht, this]
    · simp [ht]
  simp only [handleGenerate, token_branch env token htok hne, h1, h2]
  simp [Run.setLoading, Run.setError, Run.setGeneratedQuiz]

/-! ## The two submission paths -/

/-- C5: with a stored token a submit issues exactly one network call when the
active mode has content, and none otherwise.  On the upload tab with a file
the call posts a form holding the file and the count as they were appended
(not the text) to `apiBase/api/quiz/generate/file`; on the text tab with a
text that is not all
white space it posts the untrimmed text and the count (not the file)
to `apiBase/api/quiz/generate/text`; both carry `Authorization: Bearer token`;
`apiBase` is `API_URL` with one trailing `/` removed, and `API_URL` is the
configured address when one is configured. -/
theorem handleGenerate_network_calls (env : Env) (s : State) (token : String)
    (htok : env.token = some token) (hne : token ≠ "") :
    (∀ file : File, s.activeTab = "upload" → s.uploadedFile = some file →
      networkCalls (handleGenerate env s).effects =
        [{ url := apiBase env ++ "/api/quiz/generate/file",
           body := .formData [("file", .file file),
                              ("numQuestions", .number s.numQuestions)],
           headers := [("Authorization", "Bearer " ++ token),
                       ("Content-Type", "multipart/form-data")] }]) ∧
    (s.activeTab = "text" → (∃ c ∈ s.textContent.data, isJsWhiteSpace c = false) →
      networkCalls (handleGenerate env s).effects =
        [{ url := apiBase env ++ "/api/quiz/generate/text",
           body := .json [("text", .string s.textContent),
                          ("numQuestions", .number s.numQuestions)],
           headers := [("Authorization", "Bearer " ++ token),
                       ("Content-Type", "application/json")] }]) ∧
    (¬ (s.activeTab = "upload" ∧ s.uploadedFile ≠ none) →
      ¬ (s.activeTab = "text" ∧ ∃ c ∈ s.textContent.data, isJsWhiteSpace c = false) →
      networkCalls (handleGenerate env s).effects = []) ∧
    apiBase env = stripTrailingSlash (API_URL env) ∧
    (∀ base : String, API_URL env = base ++ "/" → apiBase env = base) ∧
    ((API_URL env).data.getLast? ≠ some '/' → apiBase env = API_URL env) ∧
    (∀ u : String, env.apiUrlVar = some u → u ≠ "" → API_URL env = u) := by
  refine ⟨?_, ?_, ?_, apiBase_eq env, ?_, ?_, ?_⟩
  · intro file htab hfile
    rw [handleGenerate_upload env s token file htok hne htab hfile]
    simp [Run.setLoading, networkCalls_afterPost, networkCalls, fileRequest]
  · intro htab htext
    rw [handleGenerate_text env s token htok hne htab ((jsTrim_truthy_iff _).mpr htext)]
    simp [Run.setLoading, networkCalls_afterPost, networkCalls, textRequest]
  · intro hup htx
    rw [handleGenerate_else env s token htok hne hup
      (fun h => htx ⟨h.1, (jsTrim_truthy_iff _).mp h.2⟩)]
    rfl
  · intro base hbase
    rw [apiBase_eq, hbase, stripTrailingSlash_append_slash]
  · intro hlast
    rw [apiBase_eq]
    simp [stripTrailingSlash, hlast]
  · intro u hu hne2
    simp [API_URL, hu, strTruthy, hne2]

/-- A token, the upload tab with a file, a pasted text as well, and the count
set to 7: the one call is the file request, at the address without its
trailing slash, with the file and the count 7. -/
theorem handleGenerate_network_calls_witness :
    networkCalls (handleGenerate
      ⟨some "tok", some "http://api.test/", fun _ => .rejected ⟨none⟩⟩
      { State.init with textContent := "abc",
                        uploadedFile := some ⟨"a.txt", 3, "text/plain"⟩,
                        numQuestions := .finite 7 }).effects =
      [{ url := "http://api.test/api/quiz/generate/file",
         body := .formData [("file", .file ⟨"a.txt", 3, "text/plain"⟩),
                            ("numQuestions", .number (.finite 7))],
         headers := [("Authorization", "Bearer tok"),
                     ("Content-Type", "multipart/form-data")] }] :=
  (handleGenerate_network_calls
    ⟨some "tok", some "http://api.test/", fun _ => .rejected ⟨none⟩⟩
    { State.init with textContent := "abc", uploadedFile := some ⟨"a.txt", 3, "text/plain"⟩,
                      numQuestions := .finite 7 }
    "tok" rfl (by decide)).1 ⟨"a.txt", 3, "text/plain"⟩ rfl rfl

/-- The three ways a submit can go: to the login page, through one awaited
post, or to the content error. -/
theorem handleGenerate_cases (env : Env) (s : State) :
    ((env.token = none ∨ env.token = some "") ∧
      handleGenerate env s =
        ⟨{ s with loading := false,
                  error := .string "Please login to generate quizzes",
                  generatedQuiz := .null }, [.navigate "/login"]⟩) ∨
    (∃ token req, env.token = some token ∧ token ≠ "" ∧
      handleGenerate env s =
        (afterPost ⟨pending s, [.post req]⟩ (env.post req)).setLoading false) ∨
    (∃ token, env.token = some token ∧ token ≠ "" ∧
      handleGenerate env s =
        ⟨{ s with loading := false,
                  error := .string "Please provide content to generate quiz from",
                  generatedQuiz := .null }, []⟩) := by
  by_cases ht : env.token = none ∨ env.token = some ""
  · left
    refine ⟨ht, ?_⟩
    have hb : (if tokenTruthy env.token then env.token else none) = none := by
      rcases ht with h | h <;> simp [h, tokenTruthy, strTruthy]
    simp only [handleGenerate, hb]
    simp [Run.setLoading, Run.setError, Run.setGeneratedQuiz, Run.emit]
  · right
    obtain ⟨token, htok, hne⟩ : ∃ token, env.token = some token ∧ token ≠ "" := by
      cases h : env.token with
      | none => exact absurd (Or.inl h) ht
      | some t =>
        refine ⟨t, rfl, ?_⟩
        intro ht2
        exact ht (Or.inr (by rw [h, ht2]))
    by_cases hup : s.activeTab = "upload" ∧ s.uploadedFile ≠ none
    · left
      obtain ⟨file, hfile⟩ : ∃ file, s.uploadedFile = some file := by
        cases h : s.uploadedFile with
        | none => exact absurd h hup.2
        | some f => exact ⟨f, rfl⟩
      exact ⟨token, _, htok, hne, handleGenerate_upload env s token file htok hne hup.1 hfile⟩
    · by_cases htx : s.activeTab = "text" ∧ strTruthy (jsTrim s.textContent) = true
      · left
        exact ⟨token, _, htok, hne, handleGenerate_text env s token htok hne htx.1 htx.2⟩
      · right
        exact ⟨token, htok, hne, handleGenerate_else env s token htok hne hup htx⟩

/-- When a submit issued the request `req`, it went through the awaited post
of exactly that request. -/
theorem handleGenerate_of_call (env : Env) (s : State) (req : Request)
    (hcall : networkCalls (handleGenerate env s).effects = [req]) :
    handleGenerate env s =
      (afterPost ⟨pending s, [.post req]⟩ (env.post req)).setLoading false := by
  rcases handleGenerate_cases env s with ⟨_, h⟩ | ⟨token, req2, _, _, h⟩ | ⟨token, _, _, h⟩
  · rw [h] at hcall
    simp [networkCalls] at hcall
  · have h2 := hcall
    rw [h] at h2
    simp [Run.setLoading, networkCalls_afterPost, networkCalls] at h2
    rw [h, h2]
  · rw [h] at hcall
    simp [networkCalls] at hcall

/-! ## Outcome of the awaited call -/

/-- C6, in the negative: a token, the text tab with the text `abc`, and a
server that answers the one call successfully with an empty body.  No
navigation is scheduled, `generatedQuiz` stays null and the form, not the
success panel, is shown. -/
theorem handleGenerate_success_empty_body :
    networkCalls (handleGenerate ⟨some "tok", none, fun _ => .fulfilled ⟨.string ""⟩⟩
      { State.init with activeTab := "text", textContent := "abc" }).effects =
        [textRequest "http://localhost:5000" "tok" "abc" 10] ∧
    scheduled (handleGenerate ⟨some "tok", none, fun _ => .fulfilled ⟨.string ""⟩⟩
      { State.init with activeTab := "text", textContent := "abc" }).effects = [] ∧
    (handleGenerate ⟨some "tok", none, fun _ => .fulfilled ⟨.string ""⟩⟩
      { State.init with activeTab := "text", textContent := "abc" }).state.generatedQuiz =
        .null ∧
    showsResult (handleGenerate ⟨some "tok", none, fun _ => .fulfilled ⟨.string ""⟩⟩
      { State.init with activeTab := "text", textContent := "abc" }).state = false :=
  ⟨rfl, rfl, rfl, rfl⟩

/-- C6, amended: when the one network call is answered successfully with a
truthy body, `generatedQuiz` becomes that body, the success panel replaces the
form, one navigation to `/dashboard` is scheduled after 2000 ms, and the error
is empty; with a falsy body nothing is displayed and nothing is scheduled. -/
theorem handleGenerate_success (env : Env) (s : State) (req : Request) (response : Response)
    (hcall : networkCalls (handleGenerate env s).effects = [req])
    (hres : env.post req = .fulfilled response) :
    (response.data.truthy = true →
      (handleGenerate env s).state.generatedQuiz = response.data ∧
      showsResult (handleGenerate env s).state = true ∧
      scheduled (handleGenerate env s).effects = [(2000, "/dashboard")] ∧
      (handleGenerate env s).state.error = .string "") ∧
    (response.data.truthy = false →
      (handleGenerate env s).state.generatedQuiz = .null ∧
      showsResult (handleGenerate env s).state = false ∧
      scheduled (handleGenerate env s).effects = [] ∧
      (handleGenerate env s).state.error = .string "") := by
  rw [handleGenerate_of_call env s req hcall, hres]
  constructor
  · intro hb
    simp [afterPost, hb, Run.setLoading, Run.setGeneratedQuiz, Run.emit, pending, showsResult,
      scheduled]
  · intro hb
    simp only [afterPost, hb]
    simp [Run.setLoading, pending, showsResult, scheduled, JsValue.truthy]

/-- A successful answer with a quiz object of twelve questions is displayed and
the navigation to the dashboard is scheduled. -/
theorem handleGenerate_success_witness :
    (handleGenerate
      ⟨some "tok", none, fun _ => .fulfilled ⟨.object [("numQuestions", .number 12)]⟩⟩
      { State.init with activeTab := "text", textContent := "abc" }).state.generatedQuiz =
        .object [("numQuestions", .number 12)] ∧
    scheduled (handleGenerate
      ⟨some "tok", none, fun _ => .fulfilled ⟨.object [("numQuestions", .number 12)]⟩⟩
      { State.init with activeTab := "text", textContent := "abc" }).effects =
        [(2000, "/dashboard")] :=
  have h := (handleGenerate_success
    ⟨some "tok", none, fun _ => .fulfilled ⟨.object [("numQuestions", .number 12)]⟩⟩
    { State.init with activeTab := "text", textContent := "abc" }
    (textRequest "http://localhost:5000" "tok" "abc" 10)
    ⟨.object [("numQuestions", .number 12)]⟩ rfl rfl).1 rfl
  ⟨h.1, h.2.2.1⟩

/-- C7, in the negative: the one call fails with a body whose `msg` field is
the empty string.  The error shown is the generic string, not the server's
message field. -/
theorem handleGenerate_failure_empty_msg :
    networkCalls (handleGenerate
      ⟨some "tok", none, fun _ => .rejected ⟨some ⟨.object [("msg", .string "")]⟩⟩⟩
      { State.init with activeTab := "text", textContent := "abc" }).effects =
        [textRequest "http://localhost:5000" "tok" "abc" 10] ∧
    RequestError.msg ⟨some ⟨.object [("msg", .string "")]⟩⟩ = .string "" ∧
    (handleGenerate
      ⟨some "tok", none, fun _ => .rejected ⟨some ⟨.object [("msg", .string "")]⟩⟩⟩
      { State.init with activeTab := "text", textContent := "abc" }).state.error =
        .string "Failed to generate quiz" ∧
    (handleGenerate
      ⟨some "tok", none, fun _ => .rejected ⟨some ⟨.object [("msg", .string "")]⟩⟩⟩
      { State.init with activeTab := "text", textContent := "abc" }).state.error ≠
        .string "" := by
  refine ⟨rfl, rfl, rfl, ?_⟩
  intro h
  have h2 : (handleGenerate
      ⟨some "tok", none, fun _ => .rejected ⟨some ⟨.object [("msg", .string "")]⟩⟩⟩
      { State.init with activeTab := "text", textContent := "abc" }).state.error =
        .string "Failed to generate quiz" := rfl
  rw [h2] at h
  exact absurd (JsValue.string.inj h) (by decide)

/-- C7, amended: when the one network call fails, the error shown is the
`msg` field of the failure's body when that field is truthy, and the generic
string otherwise: no response, no body, no `msg` field, or a falsy `msg` such
as the empty string.  `generatedQuiz` is null and nothing is navigated to or
scheduled. -/
theorem handleGenerate_failure (env : Env) (s : State) (req : Request) (err : RequestError)
    (hcall : networkCalls (handleGenerate env s).effects = [req])
    (hres : env.post req = .rejected err) :
    (∀ props m, err.response = some ⟨.object props⟩ → props.lookup "msg" = some m →
      m.truthy = true → (handleGenerate env s).state.error = m) ∧
    (∀ props m, err.response = some ⟨.object props⟩ → props.lookup "msg" = some m →
      m.truthy = false →
      (handleGenerate env s).state.error = .string "Failed to generate quiz") ∧
    (err.response = none →
      (handleGenerate env s).state.error = .string "Failed to generate quiz") ∧
    (∀ response, err.response = some response →
      response.data = .undefined ∨ response.data = .null →
      (handleGenerate env s).state.error = .string "Failed to generate quiz") ∧
    (∀ props, err.response = some ⟨.object props⟩ → props.lookup "msg" = none →
      (handleGenerate env s).state.error = .string "Failed to generate quiz") ∧
    (handleGenerate env s).state.error = err.msg.or (.string "Failed to generate quiz") ∧
    (handleGenerate env s).state.generatedQuiz = .null ∧
    showsResult (handleGenerate env s).state = false ∧
    scheduled (handleGenerate env s).effects = [] ∧
    navigations (handleGenerate env s).effects = [] := by
  have herr : (handleGenerate env s).state.error =
      err.msg.or (.string "Failed to generate quiz") := by
    rw [handleGenerate_of_call env s req hcall, hres]
    simp [afterPost, Run.setLoading, Run.setError, Run.emit]
  refine ⟨?_, ?_, ?_, ?_, ?_, herr, ?_, ?_, ?_, ?_⟩
  · intro props m hr hm ht
    rw [herr]
    simp [RequestError.msg, hr, JsValue.optProp, hm, JsValue.or, ht]
  · intro props m hr hm ht
    rw [herr]
    simp [RequestError.msg, hr, JsValue.optProp, hm, JsValue.or, ht]
  · intro hr
    rw [herr]
    simp [RequestError.msg, hr, JsValue.or, JsValue.truthy]
  · intro response hr hd
    rw [herr]
    rcases hd with hd | hd <;>
      simp [RequestError.msg, hr, hd, JsValue.optProp, JsValue.or, JsValue.truthy]
  · intro props hr hm
    rw [herr]
    simp [RequestError.msg, hr, JsValue.optProp, hm, JsValue.or, JsValue.truthy]
  · rw [handleGenerate_of_call env s req hcall, hres]
    simp [afterPost, Run.setLoading, Run.setError, Run.emit, pending]
  · rw [handleGenerate_of_call env s req hcall, hres]
    simp [afterPost, Run.setLoading, Run.setError, Run.emit, pending, showsResult,
      JsValue.truthy]
  · rw [handleGenerate_of_call env s req hcall, hres]
    simp [afterPost, Run.setLoading, Run.setError, Run.emit, scheduled]
  · rw [handleGenerate_of_call env s req hcall, hres]
    simp [afterPost, Run.setLoading, Run.setError, Run.emit, navigations]

/-- A failure whose body carries the message `Quota exceeded` shows that
message. -/
theorem handleGenerate_failure_witness :
    (handleGenerate
      ⟨some "tok", none,
        fun _ => .rejected ⟨some ⟨.object [("msg", .string "Quota exceeded")]⟩⟩⟩
      { State.init with activeTab := "text", textContent := "abc" }).state.error =
        .string "Quota exceeded" :=
  (handleGenerate_failure
    ⟨some "tok", none, fun _ => .rejected ⟨some ⟨.object [("msg", .string "Quota exceeded")]⟩⟩⟩
    { State.init with activeTab := "text", textContent := "abc" }
    (textRequest "http://localhost:5000" "tok" "abc" 10)
    ⟨some ⟨.object [("msg", .string "Quota exceeded")]⟩⟩ rfl rfl).1
    [("msg", .string "Quota exceeded")] (.string "Quota exceeded") rfl rfl rfl

/-- The aftermath of the awaited post writes `error` and `generatedQuiz`
only. -/
theorem afterPost_keeps (r : Run) (o : Outcome) :
    (afterPost r o).state.activeTab = r.state.activeTab ∧
    (afterPost r o).state.textContent = r.state.textContent ∧
    (afterPost r o).state.uploadedFile = r.state.uploadedFile ∧
    (afterPost r o).state.numQuestions = r.state.numQuestions := by
  cases o with
  | fulfilled response =>
    by_cases h : response.data.truthy = true <;>
      simp [afterPost, h, Run.setGeneratedQuiz, Run.emit]
  | rejected err =>
    simp [afterPost, Run.setError, Run.emit]

/-- A submit writes the cells `loading`, `error` and `generatedQuiz` only,
and leaves `loading` false. -/
theorem handleGenerate_keeps (env : Env) (s : State) :
    (handleGenerate env s).state.loading = false ∧
    (handleGenerate env s).state.activeTab = s.activeTab ∧
    (handleGenerate env s).state.textContent = s.textContent ∧
    (handleGenerate env s).state.uploadedFile = s.uploadedFile ∧
    (handleGenerate env s).state.numQuestions = s.numQuestions := by
  rcases handleGenerate_cases env s with ⟨_, h⟩ | ⟨token, req, _, _, h⟩ | ⟨token, _, _, h⟩
  · rw [h]
    simp
  · rw [h]
    have hk := afterPost_keeps ⟨pending s, [.post req]⟩ (env.post req)
    exact ⟨rfl, hk.1, hk.2.1, hk.2.2.1, hk.2.2.2⟩
  · rw [h]
    simp

/-! ## The form after a submit -/

/-- C8: whatever the starting state and the outcome, `loading` is false when
the submit completes and the tab, the file, the text and the count are those
of the starting state, so the button is disabled exactly when the active mode
has no content; when the submit did not succeed (no token, no request issued,
or a rejected request) `generatedQuiz` is null and the form is shown. -/
theorem handleGenerate_form_usable (env : Env) (s : State) :
    (handleGenerate env s).state.loading = false ∧
    (handleGenerate env s).state.activeTab = s.activeTab ∧
    (handleGenerate env s).state.uploadedFile = s.uploadedFile ∧
    (handleGenerate env s).state.textContent = s.textContent ∧
    (handleGenerate env s).state.numQuestions = s.numQuestions ∧
    (submitDisabled (handleGenerate env s).state = true ↔
      (s.activeTab = "upload" ∧ s.uploadedFile = none) ∨
      (s.activeTab = "text" ∧ ∀ c ∈ s.textContent.data, isJsWhiteSpace c = true)) ∧
    ((env.token = none ∨ env.token = some "") ∨
      networkCalls (handleGenerate env s).effects = [] ∨
      (∃ req err, networkCalls (handleGenerate env s).effects = [req] ∧
        env.post req = .rejected err) →
      (handleGenerate env s).state.generatedQuiz = .null ∧
      showsResult (handleGenerate env s).state = false) := by
  have hk := handleGenerate_keeps env s
  refine ⟨hk.1, hk.2.1, hk.2.2.2.1, hk.2.2.1, hk.2.2.2.2, ?_, ?_⟩
  · have hd := submitDisabled_true_iff (handleGenerate env s).state
    rw [hd, hk.1, hk.2.1, hk.2.2.1, hk.2.2.2.1]
    constructor
    · rintro (h | h | ⟨h1, h2 | h2⟩)
      · exact Bool.noConfusion h
      · exact Or.inl h
      · refine Or.inr ⟨h1, ?_⟩
        intro c hc
        rw [h2] at hc
        simp at hc
      · exact Or.inr ⟨h1, h2⟩
    · rintro (h | h)
      · exact Or.inr (Or.inl h)
      · exact Or.inr (Or.inr ⟨h.1, Or.inr h.2⟩)
  · intro hns
    have hnull : (handleGenerate env s).state.generatedQuiz = .null := by
      rcases handleGenerate_cases env s with ⟨_, h⟩ | ⟨token, req, htok, hne, h⟩ | ⟨token, _, _, h⟩
      · rw [h]
      · rcases hns with (hn | hn) | hn | ⟨req2, err, hcall, hrej⟩
        · rw [htok] at hn
          simp at hn
        · rw [htok] at hn
          exact absurd (Option.some.inj hn) hne
        · rw [h] at hn
          simp [Run.setLoading, networkCalls_afterPost, networkCalls] at hn
        · rw [handleGenerate_of_call env s req2 hcall, hrej]
          simp [afterPost, Run.setLoading, Run.setError, Run.emit, pending]
      · rw [h]
    rw [showsResult, hnull]
    exact ⟨rfl, rfl⟩

/-- After a rejected request on the text tab the form is shown again. -/
theorem handleGenerate_form_usable_witness :
    (handleGenerate ⟨some "tok", none, fun _ => .rejected ⟨none⟩⟩
      { State.init with activeTab := "text", textContent := "abc" }).state.generatedQuiz =
        .null ∧
    showsResult (handleGenerate ⟨some "tok", none, fun _ => .rejected ⟨none⟩⟩
      { State.init with activeTab := "text", textContent := "abc" }).state = false :=
  (handleGenerate_form_usable ⟨some "tok", none, fun _ => .rejected ⟨none⟩⟩
    { State.init with activeTab := "text", textContent := "abc" }).2.2.2.2.2.2
    (Or.inr (Or.inr ⟨textRequest "http://localhost:5000" "tok" "abc" 10, ⟨none⟩, rfl, rfl⟩))

/-! ## Submission without content -/

theorem validTab_init : validTab State.init :=
  Or.inl rfl

/-- Every handler leaves the tab cell at one of its two values. -/
theorem validTab_preserved (s : State) (h : validTab s) :
    validTab (selectUploadTab s) ∧ validTab (selectTextTab s) ∧
    (∀ file, validTab (handleFile file s)) ∧
    (∀ files, validTab (handleDrop files s)) ∧
    (∀ files, validTab (handleFileInput files s)) ∧
    (∀ eventType, validTab (handleDrag eventType s)) ∧
    validTab (removeFile s) ∧
    (∀ value, validTab (changeText value s)) ∧
    (∀ value, validTab (changeNumQuestions value s)) ∧
    (∀ env, validTab (handleGenerate env s).state) := by
  have hfile : ∀ (file : File) (t : State), validTab t → validTab (handleFile file t) := by
    intro file t ht
    unfold handleFile
    split
    · exact ht
    · split
      · exact ht
      · exact ht
  refine ⟨Or.inl rfl, Or.inr rfl, fun file => hfile file s h, ?_, ?_, ?_, h, fun _ => h,
    fun _ => h, ?_⟩
  · intro files
    cases files with
    | nil => exact h
    | cons file rest => exact hfile file _ h
  · intro files
    cases files with
    | nil => exact h
    | cons file rest => exact hfile file _ h
  · intro eventType
    unfold handleDrag
    split
    · exact h
    · split
      · exact h
      · exact h
  · intro env
    unfold validTab
    rw [(handleGenerate_keeps env s).2.1]
    exact h

/-- Whatever the user does, the tab cell holds `upload` or `text`. -/
theorem validTab_stateAfter (events : List Event) : validTab (stateAfter events) := by
  have hgen : ∀ (es : List Event) (s : State), validTab s → validTab (es.foldl step s) := by
    intro es
    induction es with
    | nil => exact fun s h => h
    | cons e rest ih =>
      intro s h
      have hp := validTab_preserved s h
      apply ih
      cases e with
      | clickUploadTab => exact hp.1
      | clickTextTab => exact hp.2.1
      | typeText value => exact hp.2.2.2.2.2.2.2.1 value
      | chooseFiles files => exact hp.2.2.2.2.1 files
      | drop files => exact hp.2.2.2.1 files
      | drag eventType => exact hp.2.2.2.2.2.1 eventType
      | clickRemoveFile => exact hp.2.2.2.2.2.2.1
      | typeCount value => exact hp.2.2.2.2.2.2.2.2.1 value
      | clickGenerate env => exact hp.2.2.2.2.2.2.2.2.2 env
  exact hgen events State.init validTab_init

/-- C9: with a stored token, a submit on the upload tab without a file, or on
the text tab with a text that is empty or all white space, issues no network
call and shows the content error, whatever the other tab holds.  The button is
disabled in each of these states, and in no other state unless `loading`
holds; from an enabled button, in every state the events of the form can
lead to, the submit goes through a request, not through this branch. -/
theorem handleGenerate_without_content (env : Env) (s : State) (token : String)
    (htok : env.token = some token) (hne : token ≠ "") :
    ((s.activeTab = "upload" ∧ s.uploadedFile = none) ∨
      (s.activeTab = "text" ∧ ∀ c ∈ s.textContent.data, isJsWhiteSpace c = true) →
      networkCalls (handleGenerate env s).effects = [] ∧
      (handleGenerate env s).state.error =
        .string "Please provide content to generate quiz from" ∧
      submitDisabled s = true) ∧
    (submitDisabled s = true →
      s.loading = true ∨
      (s.activeTab = "upload" ∧ s.uploadedFile = none) ∨
      (s.activeTab = "text" ∧ ∀ c ∈ s.textContent.data, isJsWhiteSpace c = true)) ∧
    (validTab s → submitDisabled s = false →
      (∃ req, networkCalls (handleGenerate env s).effects = [req]) ∧
      (handleGenerate env s).effects ≠ []) ∧
    (∀ events : List Event, submitDisabled (stateAfter events) = false →
      (∃ req, networkCalls (handleGenerate env (stateAfter events)).effects = [req]) ∧
      (handleGenerate env (stateAfter events)).effects ≠ []) := by
  have key : ∀ s : State, validTab s → submitDisabled s = false →
      (∃ req, networkCalls (handleGenerate env s).effects = [req]) ∧
      (handleGenerate env s).effects ≠ [] := by
    intro s hvalid hen
    have hd := submitDisabled_true_iff s
    have hnot : ¬ (s.loading = true ∨
        (s.activeTab = "upload" ∧ s.uploadedFile = none) ∨
        (s.activeTab = "text" ∧
          (s.textContent = "" ∨ ∀ c ∈ s.textContent.data, isJsWhiteSpace c = true))) := by
      intro h
      have := hd.mpr h
      rw [hen] at this
      exact Bool.noConfusion this
    have hcalls : ∃ req, networkCalls (handleGenerate env s).effects = [req] := by
      rcases hvalid with htab | htab
      · obtain ⟨file, hfile⟩ : ∃ file, s.uploadedFile = some file := by
          cases h : s.uploadedFile with
          | none => exact absurd (Or.inr (Or.inl ⟨htab, h⟩)) hnot
          | some f => exact ⟨f, rfl⟩
        refine ⟨fileRequest (apiBase env) token file s.numQuestions, ?_⟩
        rw [handleGenerate_upload env s token file htok hne htab hfile]
        simp [Run.setLoading, networkCalls_afterPost, networkCalls]
      · have htext : strTruthy (jsTrim s.textContent) = true := by
          by_contra hc
          have hf : strTruthy (jsTrim s.textContent) = false := by simpa using hc
          exact hnot (Or.inr (Or.inr ⟨htab, Or.inr ((jsTrim_falsy_iff _).mp hf)⟩))
        refine ⟨textRequest (apiBase env) token s.textContent s.numQuestions, ?_⟩
        rw [handleGenerate_text env s token htok hne htab htext]
        simp [Run.setLoading, networkCalls_afterPost, networkCalls]
    refine ⟨hcalls, ?_⟩
    obtain ⟨req, hreq⟩ := hcalls
    intro hnil
    rw [hnil] at hreq
    simp [networkCalls] at hreq
  have hd := submitDisabled_true_iff s
  refine ⟨?_, ?_, key s, fun events => key _ (validTab_stateAfter events)⟩
  · intro hno
    have hup : ¬ (s.activeTab = "upload" ∧ s.uploadedFile ≠ none) := by
      rintro ⟨h1, h2⟩
      rcases hno with h | h
      · exact h2 h.2
      · rw [h.1] at h1
        exact absurd h1 (by decide)
    have htx : ¬ (s.activeTab = "text" ∧ strTruthy (jsTrim s.textContent) = true) := by
      rintro ⟨h1, h2⟩
      rcases hno with h | h
      · rw [h.1] at h1
        exact absurd h1 (by decide)
      · have := (jsTrim_falsy_iff s.textContent).mpr h.2
        rw [h2] at this
        exact Bool.noConfusion this
    rw [handleGenerate_else env s token htok hne hup htx]
    refine ⟨rfl, rfl, ?_⟩
    rw [hd]
    rcases hno with h | h
    · exact Or.inr (Or.inl h)
    · exact Or.inr (Or.inr ⟨h.1, Or.inr h.2⟩)
  · intro hdis
    rcases hd.mp hdis with h | h | ⟨h1, h2 | h2⟩
    · exact Or.inl h
    · exact Or.inr (Or.inl h)
    · refine Or.inr (Or.inr ⟨h1, ?_⟩)
      intro c hc
      rw [h2] at hc
      simp at hc
    · exact Or.inr (Or.inr ⟨h1, h2⟩)

/-- The upload tab without a file, while a text is held for the text tab:
no request, the content error. -/
theorem handleGenerate_without_content_witness :
    networkCalls (handleGenerate ⟨some "tok", none, fun _ => .fulfilled ⟨.bool true⟩⟩
      { State.init with textContent := "abc" }).effects = [] ∧
    (handleGenerate ⟨some "tok", none, fun _ => .fulfilled ⟨.bool true⟩⟩
      { State.init with textContent := "abc" }).state.error =
        .string "Please provide content to generate quiz from" ∧
    submitDisabled { State.init with textContent := "abc" } = true :=
  (handleGenerate_without_content ⟨some "tok", none, fun _ => .fulfilled ⟨.bool true⟩⟩
    { State.init with textContent := "abc" } "tok" rfl (by decide)).1 (Or.inl ⟨rfl, rfl⟩)

/-! ## The question count -/

theorem isJsWhiteSpace_of_digit (c : Char) (h : 48 ≤ c.toNat ∧ c.toNat ≤ 57) :
    isJsWhiteSpace c = false := by
  obtain ⟨h1, h2⟩ := h
  simp only [isJsWhiteSpace, Bool.or_eq_false_iff, Bool.and_eq_false_iff, beq_eq_false_iff_ne,
    decide_eq_false_iff_not, ne_eq]
  omega

theorem digitValue_of_digit (c : Char) (h : 48 ≤ c.toNat ∧ c.toNat ≤ 57) :
    digitValue 10 c = some (c.toNat - 48) := by
  simp [digitValue, h.1, h.2]

theorem decimalValue_cons (c : Char) (cs : List Char) :
    decimalValue (c :: cs) = (c.toNat - 48) * 10 ^ cs.length + decimalValue cs := by
  simp [decimalValue, Nat.ofDigits_append, Nat.ofDigits_singleton]
  ring

/-- Reading decimal digits continues the accumulator by their value. -/
theorem parseDigits_decimal (digits : List Char)
    (hd : ∀ c ∈ digits, 48 ≤ c.toNat ∧ c.toNat ≤ 57) (acc : Nat) (seen : Bool)
    (hs : seen = true ∨ digits ≠ []) :
    parseDigits 10 digits acc seen = some (acc * 10 ^ digits.length + decimalValue digits) := by
  induction digits generalizing acc seen with
  | nil =>
    rcases hs with hs | hs
    · simp [parseDigits, hs, decimalValue]
    · exact absurd rfl hs
  | cons c cs ih =>
    have hc := hd c (List.mem_cons_self c cs)
    have hcs : ∀ x ∈ cs, 48 ≤ x.toNat ∧ x.toNat ≤ 57 :=
      fun x hx => hd x (List.mem_cons_of_mem c hx)
    rw [parseDigits, digitValue_of_digit c hc]
    simp only
    rw [ih hcs (acc * 10 + (c.toNat - 48)) true (Or.inl rfl), decimalValue_cons]
    simp only [List.length_cons, pow_succ]
    congr 1
    ring

/-- What `parseInt` reads from a string of decimal digits, and from the same
string after a minus sign. -/
theorem parseInt_digits (digits : List Char) (hne : digits ≠ [])
    (hd : ∀ c ∈ digits, 48 ≤ c.toNat ∧ c.toNat ≤ 57) :
    parseInt (String.mk digits) = some (nearestDouble (decimalValue digits)) ∧
    parseInt (String.mk ('-' :: digits)) = some (-(nearestDouble (decimalValue digits))) := by
  obtain ⟨c, cs, rfl⟩ : ∃ c cs, digits = c :: cs := by
    cases digits with
    | nil => exact absurd rfl hne
    | cons c cs => exact ⟨c, cs, rfl⟩
  have hc := hd c (List.mem_cons_self c cs)
  have hws := isJsWhiteSpace_of_digit c hc
  have hminus : c ≠ '-' := by
    intro h
    rw [h] at hc
    exact absurd hc (by decide)
  have hplus : c ≠ '+' := by
    intro h
    rw [h] at hc
    exact absurd hc (by decide)
  have hhex : ((c :: cs).take 2 == ['0', 'x'] || (c :: cs).take 2 == ['0', 'X']) = false := by
    cases cs with
    | nil => simp
    | cons d ds =>
      have hdd := hd d (by simp)
      have hx : d ≠ 'x' := by
        intro h
        rw [h] at hdd
        exact absurd hdd (by decide)
      have hX : d ≠ 'X' := by
        intro h
        rw [h] at hdd
        exact absurd hdd (by decide)
      simp [hx, hX]
  have hhex2 : ¬ (c = '0' ∧ List.take 1 cs = ['x'] ∨ c = '0' ∧ List.take 1 cs = ['X']) := by
    simpa using hhex
  have hparse := parseDigits_decimal (c :: cs) hd 0 false (Or.inr hne)
  simp only [Nat.zero_mul, Nat.zero_add] at hparse
  constructor
  · simp only [parseInt, List.dropWhile_cons, hws]
    simp [hminus, hplus, hhex2, hparse]
  · have hm : isJsWhiteSpace '-' = false := by decide
    simp only [parseInt, List.dropWhile_cons, hm]
    simp [hhex2, hparse]

theorem doubleShift_le (m : Nat) (fuel e : Nat) (h : 2 ^ (52 + e) ≤ m) :
    2 ^ (52 + doubleShift fuel m e) ≤ m := by
  induction fuel generalizing e with
  | zero => exact h
  | succ fuel ih =>
    rw [doubleShift]
    split
    · exact h
    · rename_i hlt
      apply ih
      have h53 : 2 ^ 53 ≤ m / 2 ^ e := by omega
      have hmul : 2 ^ 53 * 2 ^ e ≤ m := (Nat.le_div_iff_mul_le (Nat.two_pow_pos e)).mp h53
      have hpow : (2 : Nat) ^ (52 + (e + 1)) = 2 ^ 53 * 2 ^ e := by
        rw [← pow_add]
        congr 1
        omega
      rw [hpow]
      exact hmul

theorem doubleShift_ge (m : Nat) (fuel e : Nat) : e ≤ doubleShift fuel m e := by
  induction fuel generalizing e with
  | zero => exact Nat.le_refl e
  | succ fuel ih =>
    rw [doubleShift]
    split
    · exact Nat.le_refl e
    · exact Nat.le_trans (Nat.le_succ e) (ih (e + 1))

theorem doubleShift_lt (m : Nat) (fuel e : Nat) (h : m / 2 ^ (e + fuel) < 2 ^ 53) :
    m / 2 ^ doubleShift fuel m e < 2 ^ 53 := by
  induction fuel generalizing e with
  | zero => exact h
  | succ fuel ih =>
    rw [doubleShift]
    split
    · assumption
    · apply ih
      have he : e + 1 + fuel = e + (fuel + 1) := by omega
      rw [he]
      exact h

/-- The rounding step: the multiple of `2 ^ e` chosen is within half of
`2 ^ e` of `m`, and is the even one when `m` lies halfway. -/
theorem roundAt_spec (m e : Nat) (he : 1 ≤ e) :
    ∃ q : Nat, q ≤ m / 2 ^ e + 1 ∧
      2 * (q * 2 ^ e) ≤ 2 * m + 2 ^ e ∧ 2 * m ≤ 2 * (q * 2 ^ e) + 2 ^ e ∧
      ((2 * (q * 2 ^ e) = 2 * m + 2 ^ e ∨ 2 * m = 2 * (q * 2 ^ e) + 2 ^ e) → q % 2 = 0) ∧
      roundAt m e =
        (if doubleLimit ≤ q * 2 ^ e then .infinity false else .finite (Int.ofNat (q * 2 ^ e))) := by
  have hdm : 2 ^ e * (m / 2 ^ e) + m % 2 ^ e = m := Nat.div_add_mod m (2 ^ e)
  have hmod : m % 2 ^ e < 2 ^ e := Nat.mod_lt m (Nat.two_pow_pos e)
  have hhalf : 2 ^ e = 2 * 2 ^ (e - 1) := by
    have : e = (e - 1) + 1 := by omega
    conv_lhs => rw [this, pow_succ]
    ring
  generalize hP : 2 ^ e = P at hdm hmod hhalf
  generalize hH : 2 ^ (e - 1) = H at hhalf
  generalize hq : m / P = q0 at hdm
  generalize hr : m % P = r at hdm hmod
  by_cases hup : (H < r || (r == H && q0 % 2 == 1)) = true
  · refine ⟨q0 + 1, Nat.le_refl _, ?_, ?_, ?_, ?_⟩
    · have hc : H ≤ r := by
        simp only [Bool.or_eq_true, decide_eq_true_eq, Bool.and_eq_true, beq_iff_eq] at hup
        rcases hup with h | h
        · omega
        · omega
      have : (q0 + 1) * P = P * q0 + P := by ring
      omega
    · have : (q0 + 1) * P = P * q0 + P := by ring
      omega
    · have hc : H < r ∨ (r = H ∧ q0 % 2 = 1) := by
        simpa using hup
      have : (q0 + 1) * P = P * q0 + P := by ring
      intro htie
      rcases hc with h | h
      · omega
      · omega
    · simp only [roundAt, hP, hH, hq, hr, hup, if_true]
  · refine ⟨q0, Nat.le_succ _, ?_, ?_, ?_, ?_⟩
    · have : q0 * P = P * q0 := by ring
      omega
    · have hc : ¬ (H < r ∨ (r = H ∧ q0 % 2 = 1)) := by
        simpa using hup
      have : q0 * P = P * q0 := by ring
      omega
    · have hc : ¬ (H < r ∨ (r = H ∧ q0 % 2 = 1)) := by
        simpa using hup
      have : q0 * P = P * q0 := by ring
      intro htie
      omega
    · have hup2 : (H < r || (r == H && q0 % 2 == 1)) = false := by
        simpa using hup
      simp only [roundAt, hP, hH, hq, hr, hup2]
      rfl

/-- The bound lies above 2^53 and within reach of the 971 shifts. -/
theorem doubleLimit_bounds :
    2 ^ 53 ≤ doubleLimit ∧ doubleLimit ≤ 2 ^ 53 * 2 ^ (1 + 971) := by
  decide!

/-- What `nearestDouble` computes: the number itself below 2^53, `Infinity`
from 2^1024 on, and in between, for `m` in the range of exponent `e`, where
the doubles are the multiples of `2 ^ e`, the multiple nearest to `m` (the
even one when `m` lies halfway), or `Infinity` when that multiple is 2^1024. -/
theorem nearestDouble_spec (m : Nat) :
    (m < 2 ^ 53 → nearestDouble m = .finite m) ∧
    (doubleLimit ≤ m → nearestDouble m = .infinity false) ∧
    (2 ^ 53 ≤ m → m < doubleLimit →
      ∃ e q : Nat, 1 ≤ e ∧ 2 ^ (52 + e) ≤ m ∧ m < 2 ^ (53 + e) ∧ q ≤ 2 ^ 53 ∧
        2 * (q * 2 ^ e) ≤ 2 * m + 2 ^ e ∧ 2 * m ≤ 2 * (q * 2 ^ e) + 2 ^ e ∧
        ((2 * (q * 2 ^ e) = 2 * m + 2 ^ e ∨ 2 * m = 2 * (q * 2 ^ e) + 2 ^ e) → q % 2 = 0) ∧
        nearestDouble m =
          (if doubleLimit ≤ q * 2 ^ e then .infinity false
            else .finite (Int.ofNat (q * 2 ^ e)))) := by
  have hlim : (2 : Nat) ^ 53 ≤ doubleLimit := doubleLimit_bounds.1
  refine ⟨?_, ?_, ?_⟩
  · intro h
    unfold nearestDouble
    rw [if_pos h]
  · intro h
    unfold nearestDouble
    rw [if_neg (by omega), if_pos h]
  · intro h53 hlt
    have he1 : 1 ≤ doubleExponent m := doubleShift_ge m 971 1
    have hlow : 2 ^ (52 + doubleExponent m) ≤ m :=
      doubleShift_le m 971 1 (by simpa using h53)
    have hdiv : m / 2 ^ doubleExponent m < 2 ^ 53 := by
      apply doubleShift_lt
      rw [Nat.div_lt_iff_lt_mul (Nat.two_pow_pos _)]
      have h1 : doubleLimit ≤ 2 ^ 53 * 2 ^ (1 + 971) := doubleLimit_bounds.2
      omega
    have hhigh : m < 2 ^ (53 + doubleExponent m) := by
      rw [pow_add]
      exact (Nat.div_lt_iff_lt_mul (Nat.two_pow_pos _)).mp hdiv
    obtain ⟨q, hq, hn1, hn2, htie, hval⟩ := roundAt_spec m (doubleExponent m) he1
    refine ⟨doubleExponent m, q, he1, hlow, hhigh, by omega, hn1, hn2, htie, ?_⟩
    unfold nearestDouble
    rw [if_neg (by omega), if_neg (by omega)]
    exact hval

theorem roundAt_ne_zero (m e : Nat) (h : 2 ^ e ≤ m) : roundAt m e ≠ .finite 0 := by
  have hpos : 0 < m / 2 ^ e := Nat.div_pos h (Nat.two_pow_pos e)
  have hp : 0 < 2 ^ e := Nat.two_pow_pos e
  have key : ∀ q : Nat, 0 < q → JsNumber.finite (Int.ofNat (q * 2 ^ e)) ≠ .finite 0 := by
    intro q hq hx
    have h0 : Int.ofNat (q * 2 ^ e) = 0 := JsNumber.finite.inj hx
    have hz : q * 2 ^ e = 0 := Int.ofNat.inj h0
    rcases Nat.mul_eq_zero.mp hz with h1 | h1 <;> omega
  unfold roundAt
  simp only
  split_ifs
  · intro hx
    cases hx
  · exact key _ (by omega)
  · intro hx
    cases hx
  · exact key _ hpos

/-- The Number value of a positive natural number is not zero. -/
theorem nearestDouble_ne_zero (m : Nat) (hm : m ≠ 0) : nearestDouble m ≠ .finite 0 := by
  unfold nearestDouble
  by_cases h1 : m < 2 ^ 53
  · rw [if_pos h1]
    intro h
    have := JsNumber.finite.inj h
    omega
  · rw [if_neg h1]
    by_cases h2 : doubleLimit ≤ m
    · rw [if_pos h2]
      intro h
      cases h
    · rw [if_neg h2]
      apply roundAt_ne_zero
      have hle := doubleShift_le m 971 1 (by simpa using Nat.le_of_not_lt h1)
      refine le_trans ?_ hle
      exact Nat.pow_le_pow_right (by decide) (by unfold doubleExponent; omega)

theorem neg_ne_zero_of_ne_zero (x : JsNumber) (h : x ≠ .finite 0) : -x ≠ .finite 0 := by
  cases x with
  | finite n =>
    intro hx
    have hn : -n = 0 := JsNumber.finite.inj hx
    apply h
    have : n = 0 := by omega
    rw [this]
  | infinity negative =>
    intro hx
    cases hx

/-- The handler keeps a Number that is not zero. -/
theorem parseIntOrTen_of_some (value : String) (n : JsNumber) (h : parseInt value = some n)
    (hn : n ≠ .finite 0) : parseIntOrTen value = n := by
  have hb : (n != 0) = true := by
    rw [bne_iff_ne]
    exact hn
  simp [parseIntOrTen, h, hb]

set_option maxRecDepth 8000 in
/-- C10, in the negative: the digit 9 typed 309 times makes the count
`Infinity`, which is no integer; and the digits 9007199254740993 store the
count 9007199254740992, not the integer they denote. -/
theorem changeNumQuestions_overflow :
    (changeNumQuestions (String.mk (List.replicate 309 '9')) State.init).numQuestions =
      .infinity false ∧
    (changeNumQuestions "9007199254740993" State.init).numQuestions =
      .finite 9007199254740992 ∧
    decimalValue "9007199254740993".data = 9007199254740993 := by
  refine ⟨?_, ?_, ?_⟩
  · exact (by decide! : parseIntOrTen (String.mk (List.replicate 309 '9')) = .infinity false)
  · exact (by decide! : parseIntOrTen "9007199254740993" = .finite 9007199254740992)
  · decide!

set_option maxRecDepth 8000 in
/-- C10, amended: the count is a Number that is an integer or an infinity.
It starts at 10; typing a string stores the Number `parseInt` reads from it,
and 10 when it reads none or reads 0.  For a string of decimal digits, with
or without a minus sign, that Number is the double nearest to the integer
the digits denote: the integer itself below 2^53, the nearest multiple of
`2 ^ e` (the even one at a tie) for an integer from `2 ^ (52 + e)` up to
`2 ^ (53 + e)`, and `Infinity` once that reaches 2^1024.
No range is applied, so 3, 50 and -1 are stored as they are, and the stored
count is the one handed to the request. -/
theorem changeNumQuestions_value (value : String) (s : State) :
    State.init.numQuestions = .finite 10 ∧
    (parseInt value = none → (changeNumQuestions value s).numQuestions = .finite 10) ∧
    (parseInt value = some (.finite 0) →
      (changeNumQuestions value s).numQuestions = .finite 10) ∧
    (∀ n : JsNumber, parseInt value = some n → n ≠ .finite 0 →
      (changeNumQuestions value s).numQuestions = n) ∧
    (∀ digits : List Char, digits ≠ [] → (∀ c ∈ digits, 48 ≤ c.toNat ∧ c.toNat ≤ 57) →
      (decimalValue digits = 0 →
        (changeNumQuestions (String.mk digits) s).numQuestions = .finite 10 ∧
        (changeNumQuestions (String.mk ('-' :: digits)) s).numQuestions = .finite 10) ∧
      (decimalValue digits ≠ 0 →
        (changeNumQuestions (String.mk digits) s).numQuestions =
          nearestDouble (decimalValue digits) ∧
        (changeNumQuestions (String.mk ('-' :: digits)) s).numQuestions =
          -(nearestDouble (decimalValue digits))) ∧
      (decimalValue digits ≠ 0 → decimalValue digits < 9007199254740992 →
        (changeNumQuestions (String.mk digits) s).numQuestions =
          .finite (decimalValue digits) ∧
        (changeNumQuestions (String.mk ('-' :: digits)) s).numQuestions =
          .finite (-(decimalValue digits : Int)))) ∧
    (∀ m : Nat,
      (m < 2 ^ 53 → nearestDouble m = .finite m) ∧
      (doubleLimit ≤ m → nearestDouble m = .infinity false) ∧
      (2 ^ 53 ≤ m → m < doubleLimit →
        ∃ e q : Nat, 1 ≤ e ∧ 2 ^ (52 + e) ≤ m ∧ m < 2 ^ (53 + e) ∧ q ≤ 2 ^ 53 ∧
          2 * (q * 2 ^ e) ≤ 2 * m + 2 ^ e ∧ 2 * m ≤ 2 * (q * 2 ^ e) + 2 ^ e ∧
          ((2 * (q * 2 ^ e) = 2 * m + 2 ^ e ∨ 2 * m = 2 * (q * 2 ^ e) + 2 ^ e) →
            q % 2 = 0) ∧
          nearestDouble m =
            (if doubleLimit ≤ q * 2 ^ e then .infinity false
              else .finite (Int.ofNat (q * 2 ^ e))))) ∧
    ((changeNumQuestions "3" s).numQuestions = .finite 3 ∧
      (changeNumQuestions "50" s).numQuestions = .finite 50 ∧
      (changeNumQuestions "-1" s).numQuestions = .finite (-1) ∧
      (changeNumQuestions "" s).numQuestions = .finite 10 ∧
      (changeNumQuestions "0" s).numQuestions = .finite 10 ∧
      (changeNumQuestions "-0" s).numQuestions = .finite 10 ∧
      (changeNumQuestions "abc" s).numQuestions = .finite 10 ∧
      (changeNumQuestions "9007199254740995" s).numQuestions = .finite 9007199254740996 ∧
      (changeNumQuestions "1000000000000000000000" s).numQuestions =
        .finite 1000000000000000000000 ∧
      (changeNumQuestions "100000000000000000000000" s).numQuestions =
        .finite 99999999999999991611392 ∧
      (changeNumQuestions (String.mk ('-' :: List.replicate 309 '9')) s).numQuestions =
        .infinity true) ∧
    (∀ (env : Env) (token : String), env.token = some token → token ≠ "" →
      s.activeTab = "text" → (∃ c ∈ s.textContent.data, isJsWhiteSpace c = false) →
      networkCalls (handleGenerate env (changeNumQuestions value s)).effects =
        [{ url := apiBase env ++ "/api/quiz/generate/text",
           body := .json [("text", .string s.textContent),
                          ("numQuestions", .number (changeNumQuestions value s).numQuestions)],
           headers := [("Authorization", "Bearer " ++ token),
                       ("Content-Type", "application/json")] }]) ∧
    (∀ (env : Env) (token : String) (file : File), env.token = some token → token ≠ "" →
      s.activeTab = "upload" → s.uploadedFile = some file →
      networkCalls (handleGenerate env (changeNumQuestions value s)).effects =
        [{ url := apiBase env ++ "/api/quiz/generate/file",
           body := .formData [("file", .file file),
             ("numQuestions", .number (changeNumQuestions value s).numQuestions)],
           headers := [("Authorization", "Bearer " ++ token),
                       ("Content-Type", "multipart/form-data")] }]) := by
  have hzero : ∀ v : String, parseInt v = some (.finite 0) → parseIntOrTen v = .finite 10 := by
    intro v h
    have hb : ((JsNumber.finite 0) != 0) = false := by decide
    simp only [parseIntOrTen, h, hb]
    rfl
  refine ⟨rfl, ?_, hzero value, parseIntOrTen_of_some value, ?_, nearestDouble_spec, ?_, ?_,
    ?_⟩
  · intro h
    simp only [changeNumQuestions, parseIntOrTen, h]
    rfl
  · intro digits hne hd
    have hp := parseInt_digits digits hne hd
    refine ⟨?_, ?_, ?_⟩
    · intro h0
      have hn : nearestDouble 0 = .finite 0 := by decide
      have hneg : -(nearestDouble 0) = .finite 0 := by decide
      constructor
      · apply hzero
        rw [hp.1, h0, hn]
      · apply hzero
        rw [hp.2, h0, hneg]
    · intro h0
      have hnz := nearestDouble_ne_zero _ h0
      exact ⟨parseIntOrTen_of_some _ _ hp.1 hnz,
        parseIntOrTen_of_some _ _ hp.2 (neg_ne_zero_of_ne_zero _ hnz)⟩
    · intro h0 hlt
      have hnz := nearestDouble_ne_zero _ h0
      have hexact : nearestDouble (decimalValue digits) = .finite (decimalValue digits) := by
        have hlt2 : decimalValue digits < 2 ^ 53 := by
          have : (2 : Nat) ^ 53 = 9007199254740992 := by norm_num
          omega
        unfold nearestDouble
        rw [if_pos hlt2]
      constructor
      · have := parseIntOrTen_of_some _ _ hp.1 hnz
        rw [hexact] at this
        exact this
      · have := parseIntOrTen_of_some _ _ hp.2 (neg_ne_zero_of_ne_zero _ hnz)
        rw [hexact] at this
        exact this
  · exact ⟨(by decide! : parseIntOrTen "3" = .finite 3),
      (by decide! : parseIntOrTen "50" = .finite 50),
      (by decide! : parseIntOrTen "-1" = .finite (-1)),
      (by decide! : parseIntOrTen "" = .finite 10),
      (by decide! : parseIntOrTen "0" = .finite 10),
      (by decide! : parseIntOrTen "-0" = .finite 10),
      (by decide! : parseIntOrTen "abc" = .finite 10),
      (by decide! : parseIntOrTen "9007199254740995" = .finite 9007199254740996),
      (by decide! : parseIntOrTen "1000000000000000000000" = .finite 1000000000000000000000),
      (by decide! : parseIntOrTen "100000000000000000000000" =
        .finite 99999999999999991611392),
      (by decide! : parseIntOrTen (String.mk ('-' :: List.replicate 309 '9')) =
        .infinity true)⟩
  · intro env token htok hne htab htext
    rw [handleGenerate_text env (changeNumQuestions value s) token htok hne htab
      ((jsTrim_truthy_iff _).mpr htext)]
    simp [Run.setLoading, networkCalls_afterPost, networkCalls, textRequest, changeNumQuestions]
  · intro env token file htok hne htab hfile
    rw [handleGenerate_upload env (changeNumQuestions value s) token file htok hne htab hfile]
    simp [Run.setLoading, networkCalls_afterPost, networkCalls, fileRequest, changeNumQuestions]

/-- Typing `50` on the text tab: the request carries the count 50. -/
theorem changeNumQuestions_value_witness :
    networkCalls (handleGenerate ⟨some "tok", none, fun _ => .rejected ⟨none⟩⟩
      (changeNumQuestions "50"
        { State.init with activeTab := "text", textContent := "abc" })).effects =
      [{ url := "http://localhost:5000/api/quiz/generate/text",
         body := .json [("text", .string "abc"), ("numQuestions", .number (.finite 50))],
         headers := [("Authorization", "Bearer tok"),
                     ("Content-Type", "application/json")] }] :=
  (changeNumQuestions_value "50"
    { State.init with activeTab := "text", textContent := "abc" }).2.2.2.2.2.2.2.1
    ⟨some "tok", none, fun _ => .rejected ⟨none⟩⟩ "tok" rfl (by decide) rfl
    ⟨'a', by decide, by decide⟩

end GenerateQuiz
